import Mathlib

/-!
# Verification of the agent-orchestration core

Shallow embedding of the orchestration core of this repository:

* `selectTemplate` — src/unnamed/part_000 (`worker/agents/planning/templateSelector.ts`)
* `getAgentStub`, `cloneAgent`, `getTemplateForQuery` — src/worker/agents/index.ts
* `CodingAgentController.startCodeGeneration`, `handleWebSocketConnection` —
  src/worker/agents/index.ts (controller section)

External collaborators (the AI inference backend, the sandbox service, the
Durable-Object platform) are modelled as explicit inputs: the outcome each
collaborator call would produce is passed as a parameter, and the embedded
function reproduces the control flow of the source on those outcomes.
-/

namespace VibeSdk

/-- A template as listed by the sandbox collaborator
(`TemplateListResponse['templates']` element: name, language, frameworks,
description). -/
structure TemplateInfo where
  name : String
  language : String
  frameworks : List String
  description : String
deriving DecidableEq, Repr

/-- The structured output of the template-selection inference
(`TemplateSelection` of `worker/agents/schemas`): the fields are exactly those
the source constructs in its two fallback literals in
src/unnamed/part_000 lines 43 and 165. -/
structure TemplateSelection where
  selectedTemplateName : Option String
  reasoning : String
  useCase : Option String
  complexity : Option String
  styleSelection : Option String
  projectName : String
deriving DecidableEq, Repr

/-- Errors the AI collaborator (`executeInference`) may raise:
`RateLimitExceededError`, `SecurityError`, or any other failure
(timeout, malformed response, transport error), carrying a message. -/
inductive AIError where
  | rateLimit
  | security
  | other (msg : String)
deriving DecidableEq, Repr

/-- Outcome of the single AI inference call inside `selectTemplate`:
either a schema-conformant `TemplateSelection` or a raised error. -/
abbrev AIOutcome := Except AIError TemplateSelection

/-- The deterministic result returned for an empty candidate list
(src/unnamed/part_000 line 43). -/
def emptyCandidatesFallback : TemplateSelection :=
  { selectedTemplateName := none
    reasoning := "No templates were available to choose from."
    useCase := none
    complexity := none
    styleSelection := none
    projectName := "" }

/-- The deterministic result returned when the AI call fails with a
non-rate-limit, non-security error (src/unnamed/part_000 line 165). -/
def errorFallback : TemplateSelection :=
  { selectedTemplateName := none
    reasoning := "An error occurred during the template selection process."
    useCase := none
    complexity := none
    styleSelection := none
    projectName := "" }

/-- Equality of collaborator outcomes is decidable (needed to evaluate the
embedded functions on concrete inputs). -/
instance {ε α : Type} [DecidableEq ε] [DecidableEq α] : DecidableEq (Except ε α)
  | .ok a, .ok b =>
    if h : a = b then isTrue (by rw [h])
    else isFalse (by intro hh; cases hh; exact h rfl)
  | .ok _, .error _ => isFalse (by intro h; cases h)
  | .error _, .ok _ => isFalse (by intro h; cases h)
  | .error e, .error f =>
    if h : e = f then isTrue (by rw [h])
    else isFalse (by intro hh; cases hh; exact h rfl)

/-- One run of `selectTemplate`: the value returned (or the error re-thrown)
together with whether the AI collaborator was invoked at all. -/
structure SelectRun where
  result : Except AIError TemplateSelection
  aiInvoked : Bool
deriving DecidableEq, Repr

/-- `selectTemplate` (src/unnamed/part_000 lines 34–167).
`ai` is the outcome the AI collaborator would produce if invoked.
Control flow of the source: empty candidate list returns the deterministic
fallback without any inference; otherwise the inference result is returned;
a raised `RateLimitExceededError` or `SecurityError` is re-thrown; any other
raised error is converted to the error fallback. -/
def selectTemplate (availableTemplates : List TemplateInfo) (ai : AIOutcome) :
    SelectRun :=
  if availableTemplates.length = 0 then
    { result := .ok emptyCandidatesFallback, aiInvoked := false }
  else
    match ai with
    | .ok selection => { result := .ok selection, aiInvoked := true }
    | .error .rateLimit => { result := .error .rateLimit, aiInvoked := true }
    | .error .security => { result := .error .security, aiInvoked := true }
    | .error (.other _) => { result := .ok errorFallback, aiInvoked := true }

/-- Response of the sandbox collaborator's `listTemplates()` call
(`{success, templates[], error?}`). -/
structure TemplatesResponse where
  success : Bool
  templates : List TemplateInfo
  error : Option String
deriving DecidableEq, Repr

/-- A template's full details as returned by `getTemplateDetails`, including
the file manifest. -/
structure TemplateDetails where
  name : String
  files : List String
deriving DecidableEq, Repr

/-- Response of the sandbox collaborator's `getTemplateDetails(name)` call
(`{success, templateDetails?, error?}`). -/
structure TemplateDetailsResponse where
  success : Bool
  templateDetails : Option TemplateDetails
  error : Option String
deriving DecidableEq, Repr

/-- The distinct errors `getTemplateForQuery` can raise
(src/worker/agents/index.ts lines 119–125, 153–159, 172–178, 189–195),
plus the AI errors it lets propagate out of `selectTemplate`. -/
inductive GTQErr where
  | fetchTemplates (upstream : Option String)
  | noSuitable
  | notFound (name : String)
  | fetchDetails (upstream : Option String)
  | selectionError (e : AIError)
deriving DecidableEq, Repr

/-- The message of each error thrown by `getTemplateForQuery`, exactly as the
source builds it (`error || 'Unknown error'` interpolation included).
A propagated AI error keeps its own message and is not rebuilt here. -/
def GTQErr.message : GTQErr → String
  | .fetchTemplates e =>
      "Failed to fetch templates from sandbox service: " ++ e.getD "Unknown error"
  | .noSuitable => "No suitable template found for code generation"
  | .notFound n =>
      "Selected template '" ++ n ++ "' not found in available templates"
  | .fetchDetails e =>
      "Failed to fetch template details: " ++ e.getD "Unknown error"
  | .selectionError _ => ""

/-- Whether an error is one of the two `TemplateFetchFailure`-class errors
(a sandbox-collaborator call that did not report success), whose messages
embed the upstream error text. -/
def GTQErr.isTemplateFetchFailure : GTQErr → Bool
  | .fetchTemplates _ => true
  | .fetchDetails _ => true
  | _ => false

/-- The validation-and-fetch phase of `getTemplateForQuery` after the
selection result is in hand (src/worker/agents/index.ts lines 153–205):
reject a null selection name, look the name up in the fetched candidate
list, then fetch the chosen template's details and reject a non-success or
absent-details response. `detailsResp` is the outcome the sandbox
collaborator's `getTemplateDetails` call would produce for a given name. -/
def resolveSelection (templates : List TemplateInfo) (sel : TemplateSelection)
    (sandboxSessionId : String)
    (detailsResp : String → TemplateDetailsResponse) :
    Except GTQErr (String × TemplateDetails × TemplateSelection) :=
  match sel.selectedTemplateName with
  | none => .error .noSuitable
  | some name =>
    match templates.find? (fun t => t.name == name) with
    | none => .error (.notFound name)
    | some selected =>
      let dr := detailsResp selected.name
      if !dr.success then .error (.fetchDetails dr.error)
      else
        match dr.templateDetails with
        | none => .error (.fetchDetails dr.error)
        | some td => .ok (sandboxSessionId, td, sel)

/-- `getTemplateForQuery` (src/worker/agents/index.ts lines 102–205).
`templatesResponse` is the (possibly null) outcome of the sandbox
collaborator's `listTemplates()` call, `ai` the outcome of the AI inference
inside `selectTemplate`, `sandboxSessionId` the freshly generated session id,
and `detailsResp` the collaborator's answer to `getTemplateDetails`. -/
def getTemplateForQuery (templatesResponse : Option TemplatesResponse)
    (ai : AIOutcome) (sandboxSessionId : String)
    (detailsResp : String → TemplateDetailsResponse) :
    Except GTQErr (String × TemplateDetails × TemplateSelection) :=
  match templatesResponse with
  | none => .error (.fetchTemplates none)
  | some tr =>
    if !tr.success then .error (.fetchTemplates tr.error)
    else
      match (selectTemplate tr.templates ai).result with
      | .error e => .error (.selectionError e)
      | .ok sel => resolveSelection tr.templates sel sandboxSessionId detailsResp

/-- A Durable Object stub as the locator sees it: the jurisdiction option it
was fetched under, and whether its actor reports initialized. -/
structure Stub where
  jurisdiction : Option String
  initialized : Bool
deriving DecidableEq, Repr

/-- The platform environment `getAgentStub` runs against, for one agent id:
the ground-truth initialization flag of the actor in each jurisdiction,
which fetch-and-probe attempts throw, and whether the final direct fetch
throws. -/
structure LocatorEnv where
  namespaceAvailable : Bool
  actorInit : Option String → Bool
  fetchFails : Option String → Bool
  directFails : Bool

/-- Errors `getAgentStub` can throw: the namespace-availability check
(src/worker/agents/index.ts lines 30–33) and a rethrown direct-fetch error
(lines 66–69). -/
inductive LocError where
  | namespaceUnavailable
  | directFetchFailed
deriving DecidableEq, Repr

/-- The fixed, ordered jurisdiction list of the search
(src/worker/agents/index.ts line 38: `[undefined, 'eu']`). -/
def jurisdictions : List (Option String) := [none, some "eu"]

/-- The jurisdiction loop of `getAgentStub` (src/worker/agents/index.ts
lines 39–54): each attempt fetches a stub and probes `isInitialized`; a
throwing attempt is logged and skipped; the first initialized stub is
returned; otherwise the loop falls through. -/
def searchLoop (env : LocatorEnv) : List (Option String) → Option Stub
  | [] => none
  | j :: rest =>
    if env.fetchFails j then searchLoop env rest
    else if env.actorInit j then some ⟨j, true⟩
    else searchLoop env rest

/-- `getAgentStub` (src/worker/agents/index.ts lines 26–70): after the
namespace check, optionally run the jurisdiction search; when the search
finds no initialized stub (or is skipped), fetch directly in the default
jurisdiction, returning that stub or rethrowing the fetch error. The direct
stub's initialization flag is the default jurisdiction's ground truth. -/
def getAgentStub (env : LocatorEnv) (searchInOtherJurisdictions : Bool) :
    Except LocError Stub :=
  if !env.namespaceAvailable then .error .namespaceUnavailable
  else
    match (if searchInOtherJurisdictions then searchLoop env jurisdictions
           else none) with
    | some stub => .ok stub
    | none =>
      if env.directFails then .error .directFetchFailed
      else .ok ⟨none, env.actorInit none⟩

/-- Modelled from the spec: the agent state record `CodeGenState`
(`worker/agents/core/state`) is not under src. Its fields here are those the
spec's §3 AgentState description names and `cloneAgent` manipulates (session
identifier, sandbox binding, pending-inputs queue, generation-in-progress
flag, in-flight generation handle, reported client errors), the
`currentDevState` counter that `cloneAgent` additionally resets, and
representative remaining fields (language, frameworks, query) standing for
the preserved rest of the record. -/
structure CodeGenState where
  sessionId : String
  sandboxInstanceId : Option String
  pendingUserInputs : List String
  currentDevState : Nat
  generationPromise : Option Unit
  shouldBeGenerating : Bool
  clientReportedErrors : List String
  language : String
  frameworks : List String
  query : String
deriving DecidableEq, Repr

/-- The `newState` record literal built by `cloneAgent`
(src/worker/agents/index.ts lines 86–96): a spread of the source state with
exactly these overrides. -/
def cloneState (originalState : CodeGenState) (newAgentId : String) :
    CodeGenState :=
  { originalState with
    sessionId := newAgentId
    sandboxInstanceId := none
    pendingUserInputs := []
    currentDevState := 0
    generationPromise := none
    shouldBeGenerating := false
    clientReportedErrors := [] }

/-- An RPC issued to some actor, tagged with the target agent id:
`isInitialized` and `getFullState` are reads, `setState` the only write. -/
inductive RpcOp where
  | isInitializedCall (target : String)
  | getFullState (target : String)
  | setState (target : String)
deriving DecidableEq, Repr

/-- Whether the RPC mutates the target actor's state. -/
def RpcOp.isWrite : RpcOp → Bool
  | .setState _ => true
  | _ => false

/-- The agent id the RPC is addressed to. -/
def RpcOp.target : RpcOp → String
  | .isInitializedCall t => t
  | .getFullState t => t
  | .setState t => t

/-- `searchLoop` instrumented with the RPCs it issues: every completed probe
in the jurisdiction loop is an `isInitialized` read on the searched id. -/
def searchLoopTrace (env : LocatorEnv) (id : String) :
    List (Option String) → Option Stub × List RpcOp
  | [] => (none, [])
  | j :: rest =>
    if env.fetchFails j then searchLoopTrace env id rest
    else if env.actorInit j then (some ⟨j, true⟩, [.isInitializedCall id])
    else
      let r := searchLoopTrace env id rest
      (r.1, .isInitializedCall id :: r.2)

/-- `getAgentStub` instrumented with the RPCs it issues against the searched
id (the direct fetch itself issues no state RPC). -/
def getAgentStubTrace (env : LocatorEnv) (id : String)
    (searchInOtherJurisdictions : Bool) : Except LocError Stub × List RpcOp :=
  if !env.namespaceAvailable then (.error .namespaceUnavailable, [])
  else
    let s := if searchInOtherJurisdictions then
               searchLoopTrace env id jurisdictions
             else (none, [])
    match s.1 with
    | some stub => (.ok stub, s.2)
    | none =>
      if env.directFails then (.error .directFetchFailed, s.2)
      else (.ok ⟨none, env.actorInit none⟩, s.2)

/-- `cloneAgent` (src/worker/agents/index.ts lines 77–100), instrumented with
the RPC trace: locate the source with jurisdiction search, probe its
initialization, fetch the new agent's stub under the freshly generated id
(`newDirectOk` is that direct fetch's outcome), read the full source state,
and write the derived state into the new actor. -/
def cloneAgent (env : LocatorEnv) (newDirectOk : Bool)
    (sourceId newAgentId : String) (sourceState : CodeGenState) :
    Except String (String × CodeGenState) × List RpcOp :=
  match (getAgentStubTrace env sourceId true).1 with
  | .error _ => (.error "failed to get source stub",
      (getAgentStubTrace env sourceId true).2)
  | .ok stub =>
    if !stub.initialized then
      (.error ("Agent " ++ sourceId ++ " not found"),
        (getAgentStubTrace env sourceId true).2 ++
          [.isInitializedCall sourceId])
    else if !newDirectOk then
      (.error "failed to get new agent stub",
        (getAgentStubTrace env sourceId true).2 ++
          [.isInitializedCall sourceId])
    else
      (.ok (newAgentId, cloneState sourceState newAgentId),
        ((getAgentStubTrace env sourceId true).2 ++
          [.isInitializedCall sourceId]) ++
          [.getFullState sourceId, .setState newAgentId])

/-- The outcome of the routing attempt inside `handleWebSocketConnection`'s
inner try block: `routeAgentRequest` returned a response; it returned null
and the direct fallback (locate with jurisdiction search, then forward)
succeeded; or the block threw — actor resolution failed — with a message. -/
inductive RouteResult where
  | routed
  | fallbackOk
  | resolutionFailed (msg : String)
deriving DecidableEq, Repr

/-- An event on the server half of the synthetic `WebSocketPair`. The
`send` event carries the structured error message whose JSON encoding the
source puts on the wire (`JSON.stringify({type, error})`). -/
inductive SocketEvent where
  | accept
  | send (msgType : String) (error : String)
  | close (code : Nat) (reason : String)
deriving DecidableEq, Repr

/-- A response of the WebSocket handler: a plain HTTP response, a response
delegated to the platform router or to the located agent's `fetch`, or an
HTTP response carrying the client half of a socket pair whose server half
saw the listed events. -/
inductive HandlerResponse where
  | plain (status : Nat) (body : String)
  | delegatedRouted
  | delegatedAgentFetch
  | errorSocket (status : Nat) (serverEvents : List SocketEvent)
deriving DecidableEq, Repr

/-- Modelled from the spec: the constant `WebSocketMessageResponses.ERROR`
(`worker/agents/constants`) is not under src; it is the type tag of the
structured error message sent on the failure path. -/
def websocketErrorType : String := "error"

/-- Whether a socket event is a message send. -/
def SocketEvent.isSend : SocketEvent → Bool
  | .send _ _ => true
  | _ => false

/-- `CodingAgentController.handleWebSocketConnection`
(src/worker/agents/index.ts, controller section): parameter check, upgrade
header check, origin validation, then the routing attempt; when actor
resolution fails the handler accepts a synthetic socket pair, sends one
structured error message on it, closes it with code 1011, and returns
status 101 with the client half. -/
def handleWebSocketConnection (chatId : Option String)
    (upgradeHeader : Option String) (originValid : Bool)
    (route : RouteResult) : HandlerResponse :=
  match chatId with
  | none => .plain 400 "Missing agent ID parameter"
  | some _ =>
    if upgradeHeader ≠ some "websocket" then
      .plain 426 "Expected WebSocket upgrade"
    else if !originValid then .plain 403 "Forbidden: Invalid origin"
    else
      match route with
      | .routed => .delegatedRouted
      | .fallbackOk => .delegatedAgentFetch
      | .resolutionFailed msg =>
        .errorSocket 101
          [.accept,
           .send websocketErrorType ("Failed to get agent instance: " ++ msg),
           .close 1011 "Agent instance not found"]

/-- Parsed body of a start-generation request (the field the modelled
prefix of the controller inspects; a missing `query` is the empty string,
which is falsy in the source's `if (!query)`). -/
structure CodeGenArgs where
  query : String
deriving DecidableEq, Repr

/-- Terminal outcome of the modelled prefix of `startCodeGeneration`:
an error response, or the streaming response once initialization is
launched. -/
inductive StartResult where
  | errorResponse (status : Nat) (msg : String)
  | streamStarted (agentId : String)
deriving DecidableEq, Repr

/-- What the modelled run did: whether the app-creation rate-limit check
ran, and whether the agent stub was requested (the step that creates the
agent). -/
structure StartTrace where
  rateLimitChecked : Bool
  agentCreated : Bool
deriving DecidableEq, Repr

/-- The tail of `startCodeGeneration` after the rate-limit section: fetch
user configs and the agent stub (`initOk` is that step's outcome), resolve
the template (`templateOk`), then return the streaming response. -/
def startAfterRateLimit (agentId : String) (initOk templateOk : Bool)
    (checked : Bool) : StartResult × StartTrace :=
  if !initOk then
    (.errorResponse 500 "Failed to initialize agent", ⟨checked, true⟩)
  else if !templateOk then
    (.errorResponse 500 "Failed to get template for query", ⟨checked, true⟩)
  else (.streamStarted agentId, ⟨checked, true⟩)

/-- `CodingAgentController.startCodeGeneration`
(src/worker/agents/index.ts, controller section): parse the body, reject a
missing query, enforce the app-creation rate limit for authenticated users
only (429 on violation, before the agent stub is requested), then create
the agent and resolve the template. `user` is the authenticated user id of
the request context, `rateLimitOk` the rate-limit service's verdict. -/
def startCodeGeneration (body : Option CodeGenArgs) (user : Option String)
    (rateLimitOk : Bool) (agentId : String) (initOk templateOk : Bool) :
    StartResult × StartTrace :=
  match body with
  | none =>
    (.errorResponse 400 "Invalid JSON in request body", ⟨false, false⟩)
  | some b =>
    if b.query = "" then
      (.errorResponse 400 "Missing \"query\" field in request body",
        ⟨false, false⟩)
    else
      match user with
      | some _ =>
        if !rateLimitOk then
          (.errorResponse 429 "Rate limit exceeded", ⟨true, false⟩)
        else startAfterRateLimit agentId initOk templateOk true
      | none => startAfterRateLimit agentId initOk templateOk false

end VibeSdk

namespace VibeSdk

/-- C3: For every call of `TemplateSelector.select` with an empty candidate
list, the result has `selectedTemplateName = null` with non-empty reasoning
text, no exception is thrown, and the AI collaborator is not invoked. -/
theorem selectTemplate_empty_candidates (ai : AIOutcome) :
    selectTemplate [] ai =
      { result := .ok emptyCandidatesFallback, aiInvoked := false } ∧
    emptyCandidatesFallback.selectedTemplateName = none ∧
    emptyCandidatesFallback.reasoning ≠ "" := by
  refine ⟨rfl, rfl, ?_⟩
  decide

/-- C4 counterexample: on a non-empty candidate list, a non-rate-limit,
non-security AI failure yields a result that is NOT the same value as the
empty-candidate fallback (the reasoning text differs), refuting the claim
that `select` then "returns the same deterministic no-selection fallback
result as the empty-candidate case". -/
theorem selectTemplate_error_fallback_differs :
    (selectTemplate [⟨"react-game-starter", "typescript", ["react"], "game"⟩]
        (.error (.other "timeout"))).result = .ok errorFallback ∧
    (selectTemplate [] (.error (.other "timeout"))).result =
      .ok emptyCandidatesFallback ∧
    errorFallback ≠ emptyCandidatesFallback := by
  refine ⟨rfl, rfl, ?_⟩
  decide

/-- C4 (amended): rate-limit and security-policy errors raised by the AI
collaborator propagate to the caller unchanged; any other AI failure is
caught and `select` returns a deterministic no-selection fallback of the same
shape as the empty-candidate result (null selection, null classifications,
empty project name), differing from it only in the reasoning text. -/
theorem selectTemplate_failure_policy (ts : List TemplateInfo)
    (hne : ts ≠ []) (msg : String) :
    (selectTemplate ts (.error .rateLimit)).result = .error .rateLimit ∧
    (selectTemplate ts (.error .security)).result = .error .security ∧
    (selectTemplate ts (.error (.other msg))).result = .ok errorFallback ∧
    errorFallback.selectedTemplateName =
        emptyCandidatesFallback.selectedTemplateName ∧
    errorFallback.useCase = emptyCandidatesFallback.useCase ∧
    errorFallback.complexity = emptyCandidatesFallback.complexity ∧
    errorFallback.styleSelection = emptyCandidatesFallback.styleSelection ∧
    errorFallback.projectName = emptyCandidatesFallback.projectName := by
  have hlen : ¬ ts.length = 0 := by
    simpa [List.length_eq_zero] using hne
  refine ⟨?_, ?_, ?_, rfl, rfl, rfl, rfl, rfl⟩ <;>
    simp [selectTemplate, hlen]

/-- Witness for C4's amended theorem at a concrete candidate list and
error message. -/
theorem selectTemplate_failure_policy_witness :
    (selectTemplate [⟨"vue-blog", "typescript", ["vue"], "blog"⟩]
        (.error .rateLimit)).result = .error .rateLimit :=
  (selectTemplate_failure_policy
    [⟨"vue-blog", "typescript", ["vue"], "blog"⟩] (by decide) "boom").1

/-- C1: For every fetched candidate template list and every selection result
produced by the selector, `getTemplateForQuery` throws if the selection name
is null, throws if the name matches no fetched candidate, and returns
template details only when the selected name matches a fetched candidate. -/
theorem getTemplateForQuery_validates_selection
    (tr : TemplatesResponse) (hsucc : tr.success = true)
    (ai : AIOutcome) (sel : TemplateSelection)
    (hsel : (selectTemplate tr.templates ai).result = .ok sel)
    (sid : String) (dr : String → TemplateDetailsResponse) :
    (sel.selectedTemplateName = none →
      getTemplateForQuery (some tr) ai sid dr = .error .noSuitable) ∧
    (∀ n, sel.selectedTemplateName = some n →
      (∀ t ∈ tr.templates, t.name ≠ n) →
      getTemplateForQuery (some tr) ai sid dr = .error (.notFound n)) ∧
    (∀ out, getTemplateForQuery (some tr) ai sid dr = .ok out →
      ∃ n, sel.selectedTemplateName = some n ∧
        n ∈ tr.templates.map TemplateInfo.name) := by
  have hgtq : getTemplateForQuery (some tr) ai sid dr =
      resolveSelection tr.templates sel sid dr := by
    simp [getTemplateForQuery, hsucc, hsel]
  refine ⟨?_, ?_, ?_⟩
  · intro hnone
    simp [hgtq, resolveSelection, hnone]
  · intro n hn hnotin
    have hfind : tr.templates.find? (fun t => t.name == n) = none := by
      rw [List.find?_eq_none]
      intro t ht
      simpa using hnotin t ht
    simp [hgtq, resolveSelection, hn, hfind]
  · intro out hout
    rw [hgtq] at hout
    unfold resolveSelection at hout
    cases hn : sel.selectedTemplateName with
    | none => rw [hn] at hout; cases hout
    | some n =>
      rw [hn] at hout
      cases hfind : tr.templates.find? (fun t => t.name == n) with
      | none => simp [hfind] at hout
      | some selected =>
        refine ⟨n, rfl, ?_⟩
        have hmem := List.mem_of_find?_eq_some hfind
        have hname := List.find?_some hfind
        rw [List.mem_map]
        exact ⟨selected, hmem, by simpa using hname⟩

/-- Witness for C1 at a concrete fetched list and selection: a selection
naming a template absent from the candidate list is rejected with the
not-found error. -/
theorem getTemplateForQuery_validates_selection_witness :
    getTemplateForQuery
      (some ⟨true, [⟨"react-dashboard", "typescript", ["react"], "d"⟩], none⟩)
      (.ok ⟨some "vue-blog", "reason", none, none, none, "p"⟩) "sid"
      (fun _ => ⟨true, some ⟨"react-dashboard", []⟩, none⟩) =
      .error (.notFound "vue-blog") :=
  (getTemplateForQuery_validates_selection
    ⟨true, [⟨"react-dashboard", "typescript", ["react"], "d"⟩], none⟩ rfl
    (.ok ⟨some "vue-blog", "reason", none, none, none, "p"⟩)
    ⟨some "vue-blog", "reason", none, none, none, "p"⟩ (by decide) "sid"
    (fun _ => ⟨true, some ⟨"react-dashboard", []⟩, none⟩)).2.1
    "vue-blog" rfl (by decide)

/-- C7 counterexample: a `listTemplates` response that reports success with an
empty template list does NOT produce a `TemplateFetchFailure`-class error
embedding upstream error text; the run instead fails through the
null-selection path with the fixed "No suitable template found" message. -/
theorem getTemplateForQuery_empty_list_not_fetch_failure :
    getTemplateForQuery (some ⟨true, [], some "upstream detail"⟩)
        (.ok ⟨some "react-dashboard", "r", none, none, none, "p"⟩) "sid"
        (fun _ => ⟨true, none, none⟩) = .error .noSuitable ∧
    GTQErr.noSuitable.isTemplateFetchFailure = false ∧
    GTQErr.noSuitable.message =
      "No suitable template found for code generation" := by
  refine ⟨rfl, rfl, rfl⟩

/-- C7 (amended): `getTemplateForQuery` fails with an error embedding the
upstream error text (or "Unknown error" when absent) when the `listTemplates`
call returns null or does not report success, and when the chosen template's
details call does not report success or returns no template details; an empty
(but successful) template list instead fails through the null-selection path
with a distinct error. -/
theorem getTemplateForQuery_fetch_failures
    (ai : AIOutcome) (sid : String) (dr : String → TemplateDetailsResponse)
    (tr : TemplatesResponse) (sel : TemplateSelection)
    (templates : List TemplateInfo) (n : String) (selected : TemplateInfo) :
    (getTemplateForQuery none ai sid dr = .error (.fetchTemplates none)) ∧
    (tr.success = false →
      getTemplateForQuery (some tr) ai sid dr =
        .error (.fetchTemplates tr.error)) ∧
    (sel.selectedTemplateName = some n →
      templates.find? (fun t => t.name == n) = some selected →
      ((dr selected.name).success = false ∨
        (dr selected.name).templateDetails = none) →
      resolveSelection templates sel sid dr =
        .error (.fetchDetails (dr selected.name).error)) ∧
    (∀ s, (GTQErr.fetchTemplates (some s)).message =
        "Failed to fetch templates from sandbox service: " ++ s) ∧
    (∀ s, (GTQErr.fetchDetails (some s)).message =
        "Failed to fetch template details: " ++ s) := by
  refine ⟨rfl, ?_, ?_, fun _ => rfl, fun _ => rfl⟩
  · intro hfail
    simp [getTemplateForQuery, hfail]
  · intro hn hfind hbad
    rcases hbad with hbad | hbad <;>
      cases hs : (dr selected.name).success <;>
        simp_all [resolveSelection, hn, hfind]

/-- C5: A jurisdiction search tries [default, "eu"] in that fixed order and
returns the handle from the first jurisdiction whose actor reports
initialized; in particular, when both jurisdictions report initialized, the
default jurisdiction's handle is returned. -/
theorem getAgentStub_jurisdiction_order (env : LocatorEnv)
    (hns : env.namespaceAvailable = true) :
    (env.fetchFails none = false → env.actorInit none = true →
      getAgentStub env true = .ok ⟨none, true⟩) ∧
    ((env.fetchFails none = true ∨ env.actorInit none = false) →
      env.fetchFails (some "eu") = false → env.actorInit (some "eu") = true →
      getAgentStub env true = .ok ⟨some "eu", true⟩) ∧
    (env.fetchFails none = false → env.actorInit none = true →
      env.fetchFails (some "eu") = false → env.actorInit (some "eu") = true →
      getAgentStub env true = .ok ⟨none, true⟩) := by
  refine ⟨?_, ?_, ?_⟩
  · intro h1 h2
    simp [getAgentStub, searchLoop, jurisdictions, hns, h1, h2]
  · intro h1 h2 h3
    rcases h1 with h1 | h1 <;>
      simp [getAgentStub, searchLoop, jurisdictions, hns, h1, h2, h3]
  · intro h1 h2 _ _
    simp [getAgentStub, searchLoop, jurisdictions, hns, h1, h2]

/-- Witness for C5 at a concrete environment in which both jurisdictions
report initialized: the default jurisdiction's handle is returned. -/
theorem getAgentStub_jurisdiction_order_witness :
    getAgentStub ⟨true, fun _ => true, fun _ => false, false⟩ true =
      .ok ⟨none, true⟩ :=
  (getAgentStub_jurisdiction_order
    ⟨true, fun _ => true, fun _ => false, false⟩ rfl).2.2 rfl rfl rfl rfl

/-- C6 counterexample: an environment in which no jurisdiction reports an
initialized actor (every probe succeeds and reports uninitialized) but the
final direct default-jurisdiction fetch throws: `getAgentStub` then raises,
refuting the claim that the locate never raises in that situation. -/
theorem getAgentStub_soft_fail_counterexample :
    (∀ j, (LocatorEnv.mk true (fun _ => false) (fun _ => false) true).fetchFails
        j = false) ∧
    (∀ j, (LocatorEnv.mk true (fun _ => false) (fun _ => false) true).actorInit
        j = false) ∧
    getAgentStub (LocatorEnv.mk true (fun _ => false) (fun _ => false) true)
        true = .error .directFetchFailed :=
  ⟨fun _ => rfl, fun _ => rfl, rfl⟩

/-- C6 (amended): when no jurisdiction reports an initialized actor, the
search loop itself raises no error and yields no handle; `getAgentStub` then
falls through to a direct default-jurisdiction fetch: if that fetch succeeds
the caller receives its handle — uninitialized (hence not usable as a live
actor) whenever the default-jurisdiction probe had succeeded — and if the
direct fetch throws, that error propagates out of the locate. -/
theorem getAgentStub_soft_fail (env : LocatorEnv)
    (hns : env.namespaceAvailable = true)
    (hnone : ∀ j ∈ jurisdictions,
      env.fetchFails j = true ∨ env.actorInit j = false) :
    searchLoop env jurisdictions = none ∧
    (env.directFails = false →
      getAgentStub env true = .ok ⟨none, env.actorInit none⟩ ∧
      (env.fetchFails none = false → env.actorInit none = false)) ∧
    (env.directFails = true →
      getAgentStub env true = .error .directFetchFailed) := by
  have h0 := hnone none (by simp [jurisdictions])
  have h1 := hnone (some "eu") (by simp [jurisdictions])
  have hloop : searchLoop env jurisdictions = none := by
    rcases h0 with h0 | h0 <;> rcases h1 with h1 | h1 <;>
      simp [searchLoop, jurisdictions, h0, h1]
  refine ⟨hloop, ?_, ?_⟩
  · intro hd
    refine ⟨by simp [getAgentStub, hns, hloop, hd], ?_⟩
    intro hf
    rcases h0 with h0 | h0
    · exact absurd h0 (by simp [hf])
    · exact h0
  · intro hd
    simp [getAgentStub, hns, hloop, hd]

/-- Witness for C6's amended theorem: every probe succeeds but reports
uninitialized and the direct fetch succeeds, so the caller receives the
default jurisdiction's uninitialized handle without any error. -/
theorem getAgentStub_soft_fail_witness :
    getAgentStub ⟨true, fun _ => false, fun _ => false, false⟩ true =
      .ok ⟨none, false⟩ :=
  ((getAgentStub_soft_fail ⟨true, fun _ => false, fun _ => false, false⟩ rfl
    (fun _ _ => Or.inr rfl)).2.1 rfl).1

/-- Witness for C7's amended theorem: a failed `listTemplates` call with
upstream text "boom" yields the fetch-failure error carrying "boom". -/
theorem getTemplateForQuery_fetch_failures_witness :
    getTemplateForQuery (some ⟨false, [], some "boom"⟩)
        (.ok ⟨none, "", none, none, none, ""⟩) "sid"
        (fun _ => ⟨true, none, none⟩) =
      .error (.fetchTemplates (some "boom")) :=
  (getTemplateForQuery_fetch_failures
    (.ok ⟨none, "", none, none, none, ""⟩) "sid"
    (fun _ => ⟨true, none, none⟩) ⟨false, [], some "boom"⟩
    ⟨none, "", none, none, none, ""⟩ [] "x"
    ⟨"x", "", [], ""⟩).2.1 rfl

/-- The instrumented locator computes the same result as the plain one. -/
lemma searchLoopTrace_fst (env : LocatorEnv) (id : String)
    (l : List (Option String)) :
    (searchLoopTrace env id l).1 = searchLoop env l := by
  induction l with
  | nil => rfl
  | cons j rest ih =>
    by_cases h1 : env.fetchFails j
    · simp [searchLoopTrace, searchLoop, h1, ih]
    · by_cases h2 : env.actorInit j <;>
        simp [searchLoopTrace, searchLoop, h1, h2, ih]

/-- The instrumented `getAgentStub` computes the same result as the plain
one. -/
lemma getAgentStubTrace_fst (env : LocatorEnv) (id : String) (s : Bool) :
    (getAgentStubTrace env id s).1 = getAgentStub env s := by
  cases s <;> by_cases hns : env.namespaceAvailable <;>
    cases hd : env.directFails <;>
      cases hsl : searchLoop env jurisdictions <;>
        simp [getAgentStubTrace, getAgentStub, hns, hd, hsl,
          searchLoopTrace_fst]

/-- Every RPC the jurisdiction search issues is an `isInitialized` read on
the searched id. -/
lemma searchLoopTrace_ops (env : LocatorEnv) (id : String)
    (l : List (Option String)) :
    ∀ op ∈ (searchLoopTrace env id l).2, op = RpcOp.isInitializedCall id := by
  induction l with
  | nil => intro op h; cases h
  | cons j rest ih =>
    intro op h
    by_cases h1 : env.fetchFails j
    · exact ih op (by simpa [searchLoopTrace, h1] using h)
    · by_cases h2 : env.actorInit j
      · simpa [searchLoopTrace, h1, h2] using h
      · rcases (by simpa [searchLoopTrace, h1, h2] using h :
          op = RpcOp.isInitializedCall id ∨ op ∈ (searchLoopTrace env id rest).2) with
          h3 | h3
        · exact h3
        · exact ih op h3

/-- Every RPC `getAgentStub` issues is an `isInitialized` read on the
searched id. -/
lemma getAgentStubTrace_ops (env : LocatorEnv) (id : String) (s : Bool) :
    ∀ op ∈ (getAgentStubTrace env id s).2, op = RpcOp.isInitializedCall id := by
  intro op h
  have hsub : (getAgentStubTrace env id s).2 = [] ∨
      (getAgentStubTrace env id s).2 =
        (searchLoopTrace env id jurisdictions).2 := by
    unfold getAgentStubTrace
    by_cases hns : env.namespaceAvailable
    · cases s
      · cases hd : env.directFails <;> simp [hns, hd]
      · cases hfst : (searchLoopTrace env id jurisdictions).1 with
        | none => cases hd : env.directFails <;> simp [hns, hd, hfst]
        | some stub => simp [hns, hfst]
    · simp [hns]
  rcases hsub with hE | hE
  · rw [hE] at h; cases h
  · rw [hE] at h
    exact searchLoopTrace_ops env id jurisdictions op h

/-- C2 counterexample: on a source state with `currentDevState = 5`, the
clone's state has `currentDevState = 0`: `cloneAgent` overrides a field
(`currentDevState`) beyond the six the claim lists, so not all other fields
are preserved unchanged. -/
theorem cloneState_counterexample :
    (cloneState ⟨"old-session", some "sandbox-1", ["pending input"], 5,
        some (), true, ["client error"], "typescript", ["react"], "q"⟩
        "new-id").currentDevState = 0 ∧
    (⟨"old-session", some "sandbox-1", ["pending input"], 5, some (), true,
        ["client error"], "typescript", ["react"], "q"⟩ :
        CodeGenState).currentDevState = 5 ∧
    (0 : Nat) ≠ 5 := by
  refine ⟨rfl, rfl, by decide⟩

/-- C2 (amended): the cloned state shares every field of the source state
except exactly these seven: session identifier (replaced with the new id),
sandbox binding (cleared), pending-inputs queue (cleared), the current
dev-state counter (reset to 0), in-flight generation handle (cleared),
generation-in-progress flag (cleared to false), and reported client errors
(cleared); all remaining fields (e.g. language, frameworks) are preserved
unchanged, and a successful `cloneAgent` run writes exactly this state. -/
theorem cloneState_fields (s : CodeGenState) (newAgentId : String) :
    (cloneState s newAgentId).sessionId = newAgentId ∧
    (cloneState s newAgentId).sandboxInstanceId = none ∧
    (cloneState s newAgentId).pendingUserInputs = [] ∧
    (cloneState s newAgentId).currentDevState = 0 ∧
    (cloneState s newAgentId).generationPromise = none ∧
    (cloneState s newAgentId).shouldBeGenerating = false ∧
    (cloneState s newAgentId).clientReportedErrors = [] ∧
    (cloneState s newAgentId).language = s.language ∧
    (cloneState s newAgentId).frameworks = s.frameworks ∧
    (cloneState s newAgentId).query = s.query ∧
    (∀ env newDirectOk sourceId out,
      (cloneAgent env newDirectOk sourceId newAgentId s).1 = .ok out →
      out = (newAgentId, cloneState s newAgentId)) := by
  refine ⟨rfl, rfl, rfl, rfl, rfl, rfl, rfl, rfl, rfl, rfl, ?_⟩
  intro env newDirectOk sourceId out hout
  unfold cloneAgent at hout
  cases hstub : (getAgentStubTrace env sourceId true).1 with
  | error e => rw [hstub] at hout; simp at hout
  | ok stub =>
    rw [hstub] at hout
    cases hinit : stub.initialized <;> cases hok : newDirectOk <;>
      simp_all

/-- Witness for C2's amended theorem: a successful clone run writes exactly
the derived state, evaluated at a concrete source state. -/
theorem cloneState_fields_witness :
    (("new", ⟨"new", none, [], 0, none, false, [], "ts", ["react"], "q"⟩) :
        String × CodeGenState) =
      ("new", cloneState
        ⟨"old", some "sb", ["i"], 5, some (), true, ["e"], "ts", ["react"],
          "q"⟩ "new") :=
  (cloneState_fields
    ⟨"old", some "sb", ["i"], 5, some (), true, ["e"], "ts", ["react"], "q"⟩
    "new").2.2.2.2.2.2.2.2.2.2
    ⟨true, fun _ => true, fun _ => false, false⟩ true "src"
    ("new", ⟨"new", none, [], 0, none, false, [], "ts", ["react"], "q"⟩)
    (by decide)

/-- C10: every RPC `cloneAgent` issues against the source actor's id is a
read (`isInitialized` or `getFullState`), and the only state write in the
trace is the `setState` addressed to the freshly generated new-agent id. -/
theorem cloneAgent_only_reads_source (env : LocatorEnv) (newDirectOk : Bool)
    (sourceId newAgentId : String) (st : CodeGenState) :
    ((cloneAgent env newDirectOk sourceId newAgentId st).2.all
      (fun op => (!op.isWrite && op.target == sourceId) ||
        op == RpcOp.setState newAgentId)) = true := by
  rw [List.all_eq_true]
  have hpred : ∀ o : RpcOp, o = RpcOp.isInitializedCall sourceId ∨
      o = RpcOp.getFullState sourceId ∨ o = RpcOp.setState newAgentId →
      ((!o.isWrite && o.target == sourceId) ||
        o == RpcOp.setState newAgentId) = true := by
    intro o h
    rcases h with h | h | h <;> subst h <;> simp [RpcOp.isWrite, RpcOp.target]
  have hl2 : ∀ op ∈ (getAgentStubTrace env sourceId true).2,
      op = RpcOp.isInitializedCall sourceId ∨
        op = RpcOp.getFullState sourceId ∨
        op = RpcOp.setState newAgentId :=
    fun op hop => Or.inl (getAgentStubTrace_ops env sourceId true op hop)
  have happ1 : ∀ op ∈ (getAgentStubTrace env sourceId true).2 ++
      [RpcOp.isInitializedCall sourceId],
      op = RpcOp.isInitializedCall sourceId ∨
        op = RpcOp.getFullState sourceId ∨
        op = RpcOp.setState newAgentId := by
    intro op hop
    rcases List.mem_append.mp hop with hop | hop
    · exact hl2 op hop
    · rw [List.mem_singleton] at hop
      exact Or.inl hop
  have happ2 : ∀ op ∈ ((getAgentStubTrace env sourceId true).2 ++
      [RpcOp.isInitializedCall sourceId]) ++
      [RpcOp.getFullState sourceId, RpcOp.setState newAgentId],
      op = RpcOp.isInitializedCall sourceId ∨
        op = RpcOp.getFullState sourceId ∨
        op = RpcOp.setState newAgentId := by
    intro op hop
    rcases List.mem_append.mp hop with hop | hop
    · exact happ1 op hop
    · rcases List.mem_cons.mp hop with hop | hop
      · exact Or.inr (Or.inl hop)
      · rw [List.mem_singleton] at hop
        exact Or.inr (Or.inr hop)
  intro op hop
  refine hpred op ?_
  revert hop
  unfold cloneAgent
  cases hstub : (getAgentStubTrace env sourceId true).1 with
  | error e => exact fun hop => hl2 op hop
  | ok stub =>
    cases hinit : stub.initialized <;> cases hok : newDirectOk <;>
      simp only [hinit, hok, Bool.not_true, Bool.not_false, if_true, if_false,
        Bool.false_eq_true, Bool.true_eq_false, ite_true, ite_false]
    · exact fun hop => happ1 op hop
    · exact fun hop => happ1 op hop
    · exact fun hop => happ1 op hop
    · exact fun hop => happ2 op hop

/-- C8: On every WebSocket connection request whose actor resolution fails,
the handler does not fail the upgrade or throw: it returns status 101
carrying an accepted socket on whose server half exactly one structured
error message is sent, after which the socket is closed with code 1011. -/
theorem handleWebSocket_resolution_failure (chatId msg : String) :
    handleWebSocketConnection (some chatId) (some "websocket") true
        (.resolutionFailed msg) =
      .errorSocket 101
        [.accept,
         .send websocketErrorType ("Failed to get agent instance: " ++ msg),
         .close 1011 "Agent instance not found"] ∧
    ([SocketEvent.accept,
      .send websocketErrorType ("Failed to get agent instance: " ++ msg),
      .close 1011 "Agent instance not found"].filter
        SocketEvent.isSend).length = 1 ∧
    [SocketEvent.accept,
      .send websocketErrorType ("Failed to get agent instance: " ++ msg),
      .close 1011 "Agent instance not found"].getLast? =
      some (.close 1011 "Agent instance not found") := by
  refine ⟨rfl, rfl, rfl⟩

/-- C9: `startCodeGeneration` applies the app-creation rate-limit check
exactly when the request context carries an authenticated user; a violation
yields an HTTP 429 error response before the agent stub is requested; an
anonymous request performs no rate-limit check at all. -/
theorem startCodeGeneration_rate_limit (b : CodeGenArgs)
    (hq : b.query ≠ "") (u agentId : String) (initOk templateOk : Bool) :
    (startCodeGeneration (some b) (some u) false agentId initOk templateOk =
      (.errorResponse 429 "Rate limit exceeded",
        ⟨true, false⟩)) ∧
    ((startCodeGeneration (some b) (some u) false agentId initOk
        templateOk).2.agentCreated = false) ∧
    (∀ rlOk, (startCodeGeneration (some b) (some u) rlOk agentId initOk
        templateOk).2.rateLimitChecked = true) ∧
    (∀ rlOk, (startCodeGeneration (some b) none rlOk agentId initOk
        templateOk).2.rateLimitChecked = false) := by
  refine ⟨?_, ?_, ?_, ?_⟩
  · simp [startCodeGeneration, hq]
  · simp [startCodeGeneration, hq]
  · intro rlOk
    cases rlOk <;> cases initOk <;> cases templateOk <;>
      simp [startCodeGeneration, startAfterRateLimit, hq]
  · intro rlOk
    cases initOk <;> cases templateOk <;>
      simp [startCodeGeneration, startAfterRateLimit, hq]

/-- Witness for C9 at a concrete request: an authenticated user over the
rate limit receives 429 and no agent is created. -/
theorem startCodeGeneration_rate_limit_witness :
    startCodeGeneration (some ⟨"Build a todo app"⟩) (some "user-1") false
        "agent-1" true true =
      (.errorResponse 429 "Rate limit exceeded", ⟨true, false⟩) :=
  (startCodeGeneration_rate_limit ⟨"Build a todo app"⟩ (by decide)
    "user-1" "agent-1" true true).1

end VibeSdk
